import Mathlib

/-!
Shallow embedding of `player_transfer_value_scraper.py`.

Python `datetime` values are modelled as records of calendar fields compared
lexicographically (as CPython compares `datetime` objects).  Python dicts are
modelled as association lists with overwrite-on-insert.  Transport calls
(`get_page_soup` and the scraping functions built on it) are modelled as oracle
function parameters; each cache-using function additionally returns its updated
cache and a flag recording whether it invoked the transport oracle.  Python
exceptions are modelled with `Except String`.
-/

namespace Scraper

/-- Model of a Python `datetime` value (fields beyond minutes are never
distinguished by this program: all parsed dates are midnight). -/
structure PyDateTime where
  year : Nat
  month : Nat
  day : Nat
  hour : Nat
  minute : Nat
deriving DecidableEq, Repr

/-- CPython compares `datetime` objects lexicographically by component. -/
def dtLe (a b : PyDateTime) : Bool :=
  decide (a.year < b.year ∨ (a.year = b.year ∧
    (a.month < b.month ∨ (a.month = b.month ∧
      (a.day < b.day ∨ (a.day = b.day ∧
        (a.hour < b.hour ∨ (a.hour = b.hour ∧ a.minute ≤ b.minute))))))))

theorem dtLe_refl (a : PyDateTime) : dtLe a a = true := by
  simp [dtLe]

theorem dtLe_trans {a b c : PyDateTime} (h1 : dtLe a b = true)
    (h2 : dtLe b c = true) : dtLe a c = true := by
  simp only [dtLe, decide_eq_true_eq] at *
  omega

theorem dtLe_total (a b : PyDateTime) : dtLe a b || dtLe b a := by
  simp only [dtLe, Bool.or_eq_true, decide_eq_true_eq]
  omega

/-- `datetime(int(year), 10, 1, 0, 0)`: 1st October of the year. -/
def seasonStart (year : Nat) : PyDateTime :=
  ⟨year, 10, 1, 0, 0⟩

/-- A market-value history: list of (value, datetime) pairs. -/
abbrev ValHist := List (Nat × PyDateTime)

/-- The scanning loop of `get_season_player_market_value` (lines 303-311).
The accumulator is the running (value, date) candidate; the `break` is
modelled by returning without consuming the rest of the list. -/
def alignLoop (start : PyDateTime) :
    List (Nat × PyDateTime) → Option (Nat × PyDateTime) → Option (Nat × PyDateTime)
  | [], cand => cand
  | (v, d) :: rest, cand =>
    if dtLe d start then
      alignLoop start rest (some (v, d))
    else
      match cand with
      | none => some (v, d)
      | some c => some c

/-- `get_season_player_market_value(year, transfer_value_history)`
(lines 296-317).  A present-but-empty history reaches
`transfer_value_history[0]` with the candidate still `None`, which raises
`IndexError` in Python; this is modelled by `Except.error`. -/
def get_season_player_market_value (year : Nat) (hist : Option ValHist) :
    Except String (Option Nat × Option PyDateTime) :=
  match hist with
  | none => .ok (none, none)
  | some h =>
    match alignLoop (seasonStart year) h none with
    | some (v, d) => .ok (some v, some d)
    | none =>
      match h with
      | [] => .error "IndexError"
      | (v, d) :: _ => .ok (some v, some d)

/-- The spec wording of the season aligner: the latest observation at or
before the season start, else (when the season start precedes all history)
the earliest observation. -/
def specAlignToSeasonStart (start : PyDateTime) (h : ValHist) :
    Option (Nat × PyDateTime) :=
  match (h.filter fun p => dtLe p.2 start).getLast? with
  | some c => some c
  | none => h.head?

/-- Split an optional pair into a pair of options, as the Python function
returns its two result variables. -/
def optSplit : Option (Nat × PyDateTime) → Option Nat × Option PyDateTime
  | none => (none, none)
  | some (v, d) => (some v, some d)

/-- `transfer_value_rows.sort(key=lambda x: x[1])` (line 264): the stable ascending Python sort by the datetime component. -/
def sortRows (rows : ValHist) : ValHist :=
  rows.mergeSort fun a b => dtLe a.2 b.2

/-- One entry of the data array of `raw_data` embedded in the value page
script: value `y`, club `verein`, `age`, display string `mw`, the parsed
date `datum_mw`, epoch `x` and the `marker` icon url. -/
structure SeriesRow where
  y : Nat
  verein : String
  age : Nat
  mw : String
  datum_mw : PyDateTime
  x : Int
  marker : String
deriving DecidableEq, Repr

/-- The structured payload obtained from a script block that matches the
series pattern and parses. -/
structure SeriesData where
  data : List SeriesRow
deriving DecidableEq, Repr

/-- First `some` in a list of optional values. -/
def firstSome {α : Type} : List (Option α) → Option α
  | [] => none
  | none :: rest => firstSome rest
  | some v :: _ => some v

/-- `scrape_player_market_value_history` (lines 217-268), with the document
abstracted to the list of its script blocks; a block is `some payload` when
the series regex matches it and the extracted literal parses to `payload`,
`none` otherwise.  The loop walks indices `-1, -2, ...`, i.e. the reversed
list, and stops at the first match; absence of any match yields `none`.
Each matched row contributes exactly its `y` value and `datum_mw` date, and
the rows are then sorted ascending by date. -/
def scrape_player_market_value_history (scripts : List (Option SeriesData)) :
    Option ValHist :=
  match firstSome scripts.reverse with
  | none => none
  | some sd => some (sortRows (sd.data.map fun r => (r.y, r.datum_mw)))

/-- Lookup in a Python dict modelled as an association list. -/
def dictGet {κ α : Type} [DecidableEq κ] : List (κ × α) → κ → Option α
  | [], _ => none
  | (k', v) :: rest, k => if k' = k then some v else dictGet rest k

/-- Key assignment in a Python dict: overwrite if present, else append. -/
def dictInsert {κ α : Type} [DecidableEq κ] :
    List (κ × α) → κ → α → List (κ × α)
  | [], k, v => [(k, v)]
  | (k', v') :: rest, k, v =>
    if k' = k then (k, v) :: rest else (k', v') :: dictInsert rest k v

/-- Python renders `None` inside an f-string as the text `None`. -/
def pyStrOpt : Option String → String
  | none => "None"
  | some s => s

/-- The valuation cache: key (name-space-position string) to stored value,
where the stored value may itself be `None` (explicit absence). -/
abbrev ValCache := List (String × Option ValHist)

/-- `get_player_market_value_history(player_name, position, player_link)`
(lines 271-293).  `scrapeVal` is the transport oracle standing for
`scrape_player_market_value_history` applied to a profile link.  Returns
(history, updated cache, whether the transport oracle was invoked); the
cache file is rewritten exactly when the oracle was invoked. -/
def get_player_market_value_history (scrapeVal : String → Option ValHist)
    (cache : ValCache) (player_name : String) (position : Option String)
    (player_link : String) : Option ValHist × ValCache × Bool :=
  let key := player_name ++ " " ++ pyStrOpt position
  match dictGet cache key with
  | some (some h) => (some h, cache, false)
  | some none =>
    let tv := scrapeVal player_link
    (tv, dictInsert cache key tv, true)
  | none =>
    let tv := scrapeVal player_link
    (tv, dictInsert cache key tv, true)

/-- `calculate_player_age(year, player_data)` (lines 204-214).  The `dob`
argument models the state of the `dob` key of the `player_data` dict:
`none` = key absent, `some none` = key present holding Python `None`,
`some (some d)` = key present holding the formatted date string of `d`.
When the key holds `None`, `datetime.strptime(None, ...)` raises
`TypeError`. -/
def calculate_player_age (year : Nat) (dob_entry : Option (Option PyDateTime)) :
    Except String (Option Int) :=
  match dob_entry with
  | none => .ok none
  | some none => .error "TypeError"
  | some (some dob) =>
    let season_start := seasonStart year
    let age0 : Int := (year : Int) - (dob.year : Int)
    .ok (some (if season_start.month < dob.month ∨
        (season_start.month = dob.month ∧ season_start.day < dob.day) then
      age0 - 1 else age0))

/-- Cleaned player attributes, as produced by `clean_extract_player_data`
(lines 104-149): every key is always present in the returned dict; optional
fields hold `None` when the source page omitted them. -/
structure PlayerData where
  player_name : String
  dob : Option PyDateTime
  height : Option String
  foot : Option String
  citizenship : Option String
  position : Option String
deriving DecidableEq, Repr

/-- The player-attribute cache: raw profile link to cleaned attributes. -/
abbrev AttrCache := List (String × PlayerData)

/-- `load_scrape_player_data(team_year_player_link)` (lines 180-201).
`scrapeAttr` is the transport oracle standing for `scrape_player_data`; a
transport failure is its `.error` case (`requests.exceptions.RequestException`).
Returns (data or `None`, updated cache, whether the oracle was invoked).
On a transport error the exception handler leaves the cache unwritten. -/
def load_scrape_player_data (scrapeAttr : String → Except String PlayerData)
    (cache : AttrCache) (link : String) : Option PlayerData × AttrCache × Bool :=
  match dictGet cache link with
  | some pd => (some pd, cache, false)
  | none =>
    match scrapeAttr link with
    | .ok pd => (some pd, dictInsert cache link pd, true)
    | .error _ => (none, cache, true)

/-- Team-to-player-links mapping for one year, as built by
`extract_team_player_links`. -/
abbrev TeamPlayerLinks := List (String × List String)

/-- One entry of `links_cache`: the two sub-keys `year_team_links` and
`team_player_links`, each `none` when the sub-key is missing. -/
structure LinksEntry where
  year_team_links : Option (List String)
  team_player_links : Option TeamPlayerLinks
deriving DecidableEq, Repr

/-- The link cache: year to its (possibly partial) entry. -/
abbrev LinksCache := List (Nat × LinksEntry)

/-- `load_scrape_year_links(year)` (lines 339-375).  `extractTeams` and
`extractTP` are the transport oracles standing for `extract_team_links` and
`extract_team_player_links`.  Returns (team links, team player links,
updated cache, whether the pickle was rewritten, whether `extractTeams` was
invoked, whether `extractTP` was invoked). -/
def load_scrape_year_links (extractTeams : Nat → List String)
    (extractTP : List String → TeamPlayerLinks) (cache : LinksCache)
    (year : Nat) :
    List String × TeamPlayerLinks × LinksCache × Bool × Bool × Bool :=
  let entry := dictGet cache year
  let ytl0 : Option (List String) :=
    match entry with
    | some e => e.year_team_links
    | none => none
  let tpl0 : Option TeamPlayerLinks :=
    match entry with
    | some e => e.team_player_links
    | none => none
  let step1 : List String × LinksCache × Bool × Bool :=
    match ytl0 with
    | some l => (l, cache, false, false)
    | none =>
      let l := extractTeams year
      let e0 := (dictGet cache year).getD ⟨none, none⟩
      (l, dictInsert cache year { e0 with year_team_links := some l }, true, true)
  let ytl := step1.1
  let cache1 := step1.2.1
  let step2 : TeamPlayerLinks × LinksCache × Bool × Bool :=
    match tpl0 with
    | some t => (t, cache1, step1.2.2.1, false)
    | none =>
      let t := extractTP ytl
      let e1 := (dictGet cache1 year).getD ⟨none, none⟩
      (t, dictInsert cache1 year { e1 with team_player_links := some t }, true, true)
  (ytl, step2.1, step2.2.1, step2.2.2.1, step1.2.2.2, step2.2.2.2)

/-- Zero-padded day/month rendering of `strftime` with the day/month/year
format used throughout the program. -/
def pad2 (n : Nat) : String :=
  if n < 10 then "0" ++ toString n else toString n

/-- `strftime` with the day/month/year format. -/
def fmtDate (d : PyDateTime) : String :=
  pad2 d.day ++ "/" ++ pad2 d.month ++ "/" ++ toString d.year

/-- One output row of `main` (lines 427-440). -/
structure OutputRow where
  year : Nat
  player_name : String
  club : String
  transfer_value : Option Nat
  transfer_value_date : Option String
  age : Option Int
  dob : Option PyDateTime
  height : Option String
  foot : Option String
  citizenship : Option String
  position : Option String
  player_link : String
deriving DecidableEq, Repr

/-- The body of the innermost loop of `main` (lines 420-442) for one player
link, composed from the embedded pieces: load-or-scrape attributes; when
attributes are absent (transport failure) emit nothing; otherwise run
`add_player_market_value_for_year` (lines 320-336) and
`calculate_player_age` and assemble the row.  Returns (emitted row or
`none`, or the propagated exception; updated attribute cache; updated
valuation cache). -/
def main_entity_step (scrapeAttr : String → Except String PlayerData)
    (scrapeVal : String → Option ValHist) (attrCache : AttrCache)
    (valCache : ValCache) (year : Nat) (team : String) (player_link : String) :
    Except String (Option OutputRow) × AttrCache × ValCache :=
  let r1 := load_scrape_player_data scrapeAttr attrCache player_link
  match r1.1 with
  | none => (.ok none, r1.2.1, valCache)
  | some pd =>
    let r2 := get_player_market_value_history scrapeVal valCache
      pd.player_name pd.position player_link
    match get_season_player_market_value year r2.1 with
    | .error e => (.error e, r1.2.1, r2.2.1)
    | .ok (tv, tvd) =>
      match calculate_player_age year (some pd.dob) with
      | .error e => (.error e, r1.2.1, r2.2.1)
      | .ok age =>
        (.ok (some
          { year := year
            player_name := pd.player_name
            club := team
            transfer_value := tv
            transfer_value_date := tvd.map fmtDate
            age := age
            dob := pd.dob
            height := pd.height
            foot := pd.foot
            citizenship := pd.citizenship
            position := pd.position
            player_link := player_link }), r1.2.1, r2.2.1)

/-! ### Helper lemmas about the season-alignment loop -/

/-- Closed form of one full run of `alignLoop`: the last filtered element at
or before the cutoff wins; otherwise, on a non-empty list, the incoming
candidate wins if present, else the head; on an empty list the candidate is
returned unchanged. -/
def alignResult (start : PyDateTime) (h : List (Nat × PyDateTime))
    (c : Option (Nat × PyDateTime)) : Option (Nat × PyDateTime) :=
  match (h.filter fun p => dtLe p.2 start).getLast? with
  | some p => some p
  | none =>
    match h with
    | [] => c
    | x :: _ => some (c.getD x)

theorem alignLoop_eq (start : PyDateTime) (h : List (Nat × PyDateTime)) :
    ∀ (c : Option (Nat × PyDateTime)),
    h.Pairwise (fun a b => dtLe a.2 b.2 = true) →
    alignLoop start h c = alignResult start h c := by
  induction h with
  | nil => intro c _; rfl
  | cons x rest ih =>
    intro c hp
    obtain ⟨v, d⟩ := x
    rw [List.pairwise_cons] at hp
    by_cases hd : dtLe d start
    · rw [show alignLoop start ((v, d) :: rest) c
          = alignLoop start rest (some (v, d)) by simp [alignLoop, hd]]
      rw [ih _ hp.2]
      unfold alignResult
      simp only [List.filter_cons, hd, if_pos]
      cases hfr : rest.filter (fun p => dtLe p.2 start) with
      | nil =>
        simp only [hfr, List.getLast?_singleton]
        cases rest <;> simp
      | cons q qs =>
        cases hql : (q :: qs).getLast? with
        | none => simp at hql
        | some p => simp [hfr, hql]
    · have hfr : rest.filter (fun p => dtLe p.2 start) = [] := by
        rw [List.filter_eq_nil_iff]
        intro y hy hyP
        exact hd (dtLe_trans (hp.1 y hy) hyP)
      have hd' : dtLe d start = false := by
        simpa using hd
      rw [show alignLoop start ((v, d) :: rest) c
          = (match c with | none => some (v, d) | some c0 => some c0) by
        simp [alignLoop, hd']]
      unfold alignResult
      simp only [List.filter_cons, hd', Bool.false_eq_true, if_neg, hfr,
        List.getLast?_nil]
      cases c <;> rfl

theorem alignLoop_none_eq_spec (start : PyDateTime) (h : ValHist)
    (hs : h.Pairwise (fun a b => dtLe a.2 b.2 = true)) :
    alignLoop start h none = specAlignToSeasonStart start h := by
  rw [alignLoop_eq start h none hs]
  unfold alignResult specAlignToSeasonStart
  cases (h.filter fun p => dtLe p.2 start).getLast? <;> cases h <;> rfl

/-! ### Claims -/

/-- Claim C1: for every non-empty valuation history sorted ascending by
timestamp and every year, `get_season_player_market_value` returns the
(value, date) of the latest observation at or before October 1st 00:00 of
that year, and when the season start precedes all observations it returns
the first (earliest) observation — as captured by `specAlignToSeasonStart`. -/
theorem c1_season_alignment (year : Nat) (h : ValHist) (hne : h ≠ [])
    (hs : h.Pairwise (fun a b => dtLe a.2 b.2 = true)) :
    get_season_player_market_value year (some h) =
      .ok (optSplit (specAlignToSeasonStart (seasonStart year) h)) := by
  simp only [get_season_player_market_value]
  rw [alignLoop_none_eq_spec _ _ hs]
  cases hsp : specAlignToSeasonStart (seasonStart year) h with
  | some p =>
    obtain ⟨v, d⟩ := p
    simp [optSplit]
  | none =>
    exfalso
    apply hne
    unfold specAlignToSeasonStart at hsp
    cases h with
    | nil => rfl
    | cons x xs =>
      cases hfl : ((x :: xs).filter fun p => dtLe p.2 (seasonStart year)).getLast? with
      | some p => rw [hfl] at hsp; exact absurd hsp (by simp)
      | none => rw [hfl] at hsp; exact absurd hsp (by simp)

/-- Witness for C1 at the example of the spec: history
[(100, Jan 1 2020), (200, Nov 1 2020)], year 2020: the result is
(100, Jan 1 2020), the last value at or before the cutoff. -/
theorem c1_season_alignment_witness :
    ([(100, (⟨2020, 1, 1, 0, 0⟩ : PyDateTime)), (200, ⟨2020, 11, 1, 0, 0⟩)] ≠
        ([] : ValHist)) ∧
    ([(100, (⟨2020, 1, 1, 0, 0⟩ : PyDateTime)), (200, ⟨2020, 11, 1, 0, 0⟩)] :
        ValHist).Pairwise (fun a b => dtLe a.2 b.2 = true) ∧
    get_season_player_market_value 2020
        (some [(100, ⟨2020, 1, 1, 0, 0⟩), (200, ⟨2020, 11, 1, 0, 0⟩)]) =
      .ok (optSplit (specAlignToSeasonStart (seasonStart 2020)
        [(100, ⟨2020, 1, 1, 0, 0⟩), (200, ⟨2020, 11, 1, 0, 0⟩)])) ∧
    optSplit (specAlignToSeasonStart (seasonStart 2020)
        [(100, ⟨2020, 1, 1, 0, 0⟩), (200, ⟨2020, 11, 1, 0, 0⟩)]) =
      (some 100, some ⟨2020, 1, 1, 0, 0⟩) :=
  ⟨by decide, by decide,
    c1_season_alignment 2020 _ (by decide) (by decide), by decide⟩

/-- Claim C3 (code bug): the claim says a present-but-empty history yields
(absent, absent) with no error, but the code reaches
`transfer_value_history[0]` on the empty list and raises `IndexError`; only
the absent (`None`) history yields (absent, absent). -/
theorem c3_empty_history_crash :
    get_season_player_market_value 2020 (some []) = .error "IndexError" ∧
    get_season_player_market_value 2020 none = .ok (none, none) :=
  ⟨rfl, rfl⟩

/-- Claim C5: for every record with a present date of birth and every year,
`calculate_player_age` returns year minus birth year, decremented by one
exactly when the birth month/day falls after October 1; including the two
examples of the spec. -/
theorem c5_age_computation (year : Nat) (dob : PyDateTime) :
    calculate_player_age year (some (some dob)) =
      .ok (some (if 10 < dob.month ∨ (10 = dob.month ∧ 1 < dob.day) then
        (year : Int) - (dob.year : Int) - 1 else (year : Int) - (dob.year : Int))) ∧
    calculate_player_age 2020 (some (some ⟨1995, 11, 15, 0, 0⟩)) = .ok (some 24) ∧
    calculate_player_age 2020 (some (some ⟨1995, 9, 1, 0, 0⟩)) = .ok (some 25) := by
  refine ⟨?_, rfl, rfl⟩
  simp only [calculate_player_age, seasonStart]

/-- Counterexample to claim C2: the valuation cache holds explicit absence
(`None`) for the key of the call, yet the call invokes the transport oracle
(third component `true`) and rewrites the cache entry, because the code
re-fetches when `player_transfer_value_cache[key] is None`. -/
theorem c2_cached_absence_refetches :
    (get_player_market_value_history
        (fun _ => some [(100, ⟨2020, 1, 1, 0, 0⟩)])
        [("alice Forward", none)] "alice" (some "Forward") "L").2.2 = true ∧
    (get_player_market_value_history
        (fun _ => some [(100, ⟨2020, 1, 1, 0, 0⟩)])
        [("alice Forward", none)] "alice" (some "Forward") "L").2.1 ≠
      [("alice Forward", none)] := by
  constructor
  · rfl
  · decide

/-- Claim C2 as amended: a cache entry holding a present history for the
key is returned as-is, with no transport fetch and no cache write; but an
entry recording explicit absence behaves like a miss — it triggers a
re-fetch and a cache write. -/
theorem c2_cached_history_no_refetch (scrapeVal : String → Option ValHist)
    (cache : ValCache) (name : String) (pos : Option String) (link : String)
    (h : ValHist)
    (hc : dictGet cache (name ++ " " ++ pyStrOpt pos) = some (some h)) :
    get_player_market_value_history scrapeVal cache name pos link =
      (some h, cache, false) ∧
    (∀ cache2 : ValCache,
      dictGet cache2 (name ++ " " ++ pyStrOpt pos) = some none →
      get_player_market_value_history scrapeVal cache2 name pos link =
        (scrapeVal link,
          dictInsert cache2 (name ++ " " ++ pyStrOpt pos) (scrapeVal link),
          true)) := by
  constructor
  · simp only [get_player_market_value_history, hc]
  · intro cache2 hc2
    simp only [get_player_market_value_history, hc2]

/-- Witness for C2 as amended, at a one-entry cache holding a present
history and a one-entry cache holding explicit absence. -/
theorem c2_cached_history_no_refetch_witness :
    dictGet [("bob Defender", some [(7, (⟨2019, 5, 5, 0, 0⟩ : PyDateTime))])]
        ("bob" ++ " " ++ pyStrOpt (some "Defender")) =
      some (some [(7, ⟨2019, 5, 5, 0, 0⟩)]) ∧
    dictGet [("bob Defender", (none : Option ValHist))]
        ("bob" ++ " " ++ pyStrOpt (some "Defender")) = some none ∧
    get_player_market_value_history (fun _ => none)
        [("bob Defender", some [(7, ⟨2019, 5, 5, 0, 0⟩)])] "bob"
        (some "Defender") "L1" =
      (some [(7, ⟨2019, 5, 5, 0, 0⟩)],
        [("bob Defender", some [(7, ⟨2019, 5, 5, 0, 0⟩)])], false) ∧
    get_player_market_value_history (fun _ => none)
        [("bob Defender", (none : Option ValHist))] "bob" (some "Defender")
        "L1" =
      ((fun _ => (none : Option ValHist)) "L1",
        dictInsert [("bob Defender", (none : Option ValHist))]
          ("bob" ++ " " ++ pyStrOpt (some "Defender"))
          ((fun _ => (none : Option ValHist)) "L1"), true) :=
  ⟨by decide, by decide,
    (c2_cached_history_no_refetch (fun _ => none)
      [("bob Defender", some [(7, ⟨2019, 5, 5, 0, 0⟩)])] "bob"
      (some "Defender") "L1" [(7, ⟨2019, 5, 5, 0, 0⟩)] (by decide)).1,
    (c2_cached_history_no_refetch (fun _ => none)
      [("bob Defender", some [(7, ⟨2019, 5, 5, 0, 0⟩)])] "bob"
      (some "Defender") "L1" [(7, ⟨2019, 5, 5, 0, 0⟩)] (by decide)).2
      [("bob Defender", none)] (by decide)⟩

/-- Claim C10: once the valuation cache holds a present history for the
key built from name and position, the result of
`get_player_market_value_history` does not depend on the profile-link
argument: two calls with distinct links return the identical cached history
and invoke no transport fetch. -/
theorem c10_link_independence (scrapeVal : String → Option ValHist)
    (cache : ValCache) (name : String) (pos : Option String)
    (link1 link2 : String) (h : ValHist)
    (hc : dictGet cache (name ++ " " ++ pyStrOpt pos) = some (some h)) :
    get_player_market_value_history scrapeVal cache name pos link1 =
      get_player_market_value_history scrapeVal cache name pos link2 ∧
    get_player_market_value_history scrapeVal cache name pos link1 =
      (some h, cache, false) := by
  constructor
  · simp only [get_player_market_value_history, hc]
  · simp only [get_player_market_value_history, hc]

/-- Witness for C10: two same-named, same-position players with distinct
profile links share the single cached history. -/
theorem c10_link_independence_witness :
    dictGet [("carl Keeper", some [(9, (⟨2018, 3, 2, 0, 0⟩ : PyDateTime))])]
        ("carl" ++ " " ++ pyStrOpt (some "Keeper")) =
      some (some [(9, ⟨2018, 3, 2, 0, 0⟩)]) ∧
    get_player_market_value_history (fun _ => none)
        [("carl Keeper", some [(9, ⟨2018, 3, 2, 0, 0⟩)])] "carl"
        (some "Keeper") "/carl-1/profil/spieler/1" =
      get_player_market_value_history (fun _ => none)
        [("carl Keeper", some [(9, ⟨2018, 3, 2, 0, 0⟩)])] "carl"
        (some "Keeper") "/carl-2/profil/spieler/2" ∧
    get_player_market_value_history (fun _ => none)
        [("carl Keeper", some [(9, ⟨2018, 3, 2, 0, 0⟩)])] "carl"
        (some "Keeper") "/carl-1/profil/spieler/1" =
      (some [(9, ⟨2018, 3, 2, 0, 0⟩)],
        [("carl Keeper", some [(9, ⟨2018, 3, 2, 0, 0⟩)])], false) :=
  ⟨by decide,
    (c10_link_independence (fun _ => none)
      [("carl Keeper", some [(9, ⟨2018, 3, 2, 0, 0⟩)])] "carl"
      (some "Keeper") "/carl-1/profil/spieler/1" "/carl-2/profil/spieler/2"
      [(9, ⟨2018, 3, 2, 0, 0⟩)] (by decide)).1,
    (c10_link_independence (fun _ => none)
      [("carl Keeper", some [(9, ⟨2018, 3, 2, 0, 0⟩)])] "carl"
      (some "Keeper") "/carl-1/profil/spieler/1" "/carl-2/profil/spieler/2"
      [(9, ⟨2018, 3, 2, 0, 0⟩)] (by decide)).2⟩

/-- Claim C8: when fetching the attributes of one entity fails with a transport
error, `load_scrape_player_data` returns absent with an unchanged attribute
cache (having invoked the transport), the aggregator body emits no row and
surfaces no error for that entity, and a subsequent run with the resulting
cache state performs the fetch again. -/
theorem c8_transport_error_skips_entity
    (scrapeAttr : String → Except String PlayerData)
    (scrapeVal : String → Option ValHist) (attrCache : AttrCache)
    (valCache : ValCache) (year : Nat) (team : String) (link : String)
    (e : String)
    (hmiss : dictGet attrCache link = none)
    (herr : scrapeAttr link = .error e) :
    load_scrape_player_data scrapeAttr attrCache link =
      (none, attrCache, true) ∧
    main_entity_step scrapeAttr scrapeVal attrCache valCache year team link =
      (.ok none, attrCache, valCache) ∧
    load_scrape_player_data scrapeAttr
        (load_scrape_player_data scrapeAttr attrCache link).2.1 link =
      (none, attrCache, true) := by
  have h1 : load_scrape_player_data scrapeAttr attrCache link =
      (none, attrCache, true) := by
    simp only [load_scrape_player_data, hmiss, herr]
  refine ⟨h1, ?_, ?_⟩
  · simp only [main_entity_step, h1]
  · rw [h1]
    exact h1

/-- Witness for C8 at the empty attribute cache and an always-failing
transport oracle. -/
theorem c8_transport_error_skips_entity_witness :
    dictGet ([] : AttrCache) "/x/profil/spieler/9" = none ∧
    (fun _ : String => (Except.error "RequestException" :
        Except String PlayerData)) "/x/profil/spieler/9" =
      .error "RequestException" ∧
    main_entity_step (fun _ => .error "RequestException") (fun _ => none)
        [] [] 2020 "teamA" "/x/profil/spieler/9" = (.ok none, [], []) :=
  ⟨rfl, rfl,
    (c8_transport_error_skips_entity (fun _ => .error "RequestException")
      (fun _ => none) [] [] 2020 "teamA" "/x/profil/spieler/9"
      "RequestException" rfl rfl).2.1⟩

/-- Claim C6: a link-cache season entry with only the team-links sub-key
populated makes `load_scrape_year_links` re-resolve only the team-player
links, feeding the stored team links to the resolver, and persist the
completed entry; a fully populated entry triggers no resolution and no
write. -/
theorem c6_link_cache_completion (eT : Nat → List String)
    (eTP : List String → TeamPlayerLinks) (cache : LinksCache) (year : Nat)
    (ul : List String) :
    (dictGet cache year = some ⟨some ul, none⟩ →
      load_scrape_year_links eT eTP cache year =
        (ul, eTP ul, dictInsert cache year ⟨some ul, some (eTP ul)⟩,
          true, false, true)) ∧
    (∀ pl : TeamPlayerLinks, dictGet cache year = some ⟨some ul, some pl⟩ →
      load_scrape_year_links eT eTP cache year =
        (ul, pl, cache, false, false, false)) := by
  constructor
  · intro hc
    simp only [load_scrape_year_links, hc]
    rfl
  · intro pl hc
    simp only [load_scrape_year_links, hc]

/-- Witness for C6 at a one-entry cache, in both the partial and the fully
populated state. -/
theorem c6_link_cache_completion_witness :
    dictGet [(2020, (⟨some ["tA"], none⟩ : LinksEntry))] 2020 =
      some ⟨some ["tA"], none⟩ ∧
    dictGet [(2020, (⟨some ["tA"], some [("tA", ["p1"])]⟩ : LinksEntry))]
        2020 = some ⟨some ["tA"], some [("tA", ["p1"])]⟩ ∧
    load_scrape_year_links (fun _ => ["ignored"])
        (fun l => [("resolved", l)]) [(2020, ⟨some ["tA"], none⟩)] 2020 =
      (["tA"], [("resolved", ["tA"])],
        dictInsert [(2020, ⟨some ["tA"], none⟩)] 2020
          ⟨some ["tA"], some [("resolved", ["tA"])]⟩, true, false, true) ∧
    load_scrape_year_links (fun _ => ["ignored"])
        (fun l => [("resolved", l)])
        [(2020, ⟨some ["tA"], some [("tA", ["p1"])]⟩)] 2020 =
      (["tA"], [("tA", ["p1"])],
        [(2020, ⟨some ["tA"], some [("tA", ["p1"])]⟩)],
        false, false, false) :=
  ⟨by decide, by decide,
    (c6_link_cache_completion (fun _ => ["ignored"]) (fun l => [("resolved", l)])
      [(2020, ⟨some ["tA"], none⟩)] 2020 ["tA"]).1 (by decide),
    (c6_link_cache_completion (fun _ => ["ignored"]) (fun l => [("resolved", l)])
      [(2020, ⟨some ["tA"], some [("tA", ["p1"])]⟩)] 2020 ["tA"]).2
      [("tA", ["p1"])] (by decide)⟩

theorem firstSome_all_none {α : Type} (l : List (Option α))
    (h : ∀ s ∈ l, s = none) : firstSome l = none := by
  induction l with
  | nil => rfl
  | cons x rest ih =>
    cases x with
    | none => exact ih fun s hs => h s (List.mem_cons_of_mem _ hs)
    | some v => exact absurd (h _ (List.mem_cons_self _ _)) (by simp)

theorem firstSome_append_some {α : Type} (l1 l2 : List (Option α)) (v : α)
    (h : ∀ s ∈ l1, s = none) : firstSome (l1 ++ some v :: l2) = some v := by
  induction l1 with
  | nil => rfl
  | cons x rest ih =>
    cases x with
    | none =>
      exact ih fun s hs => h s (List.mem_cons_of_mem _ hs)
    | some w => exact absurd (h _ (List.mem_cons_self _ _)) (by simp)

/-- Claim C7: the extractor scans script blocks in reverse document order,
uses the first block matching the series marker, returns absent (not an
error) when no block matches, and maps each matched observation to exactly
its (value, date) pair, discarding the auxiliary fields. -/
theorem c7_script_scan (scripts : List (Option SeriesData)) :
    ((∀ s ∈ scripts, s = none) →
      scrape_player_market_value_history scripts = none) ∧
    (∀ (pre post : List (Option SeriesData)) (sd : SeriesData),
      scripts = pre ++ some sd :: post → (∀ s ∈ post, s = none) →
      scrape_player_market_value_history scripts =
        some (sortRows (sd.data.map fun r => (r.y, r.datum_mw)))) := by
  constructor
  · intro hall
    unfold scrape_player_market_value_history
    rw [firstSome_all_none _ fun s hs => hall s (List.mem_reverse.mp hs)]
  · intro pre post sd hs hpost
    subst hs
    unfold scrape_player_market_value_history
    rw [show (pre ++ some sd :: post).reverse =
        post.reverse ++ some sd :: pre.reverse by simp]
    rw [firstSome_append_some _ _ _ fun s hs => hpost s (List.mem_reverse.mp hs)]

/-- The example data row of the source comment (lines 250-261). -/
def exampleSeriesData : SeriesData :=
  ⟨[{ y := 5400000
      verein := "Watford FC"
      age := 24
      mw := "5.40m"
      datum_mw := ⟨2019, 12, 10, 0, 0⟩
      x := 1575932400000
      marker := "1010.png" }]⟩

/-- Witness for C7: a document whose scripts are (no match, match, no
match) uses the matching block, keeping only value and date of each row;
a document with no matching script yields absent. -/
theorem c7_script_scan_witness :
    ([none, some exampleSeriesData, none] : List (Option SeriesData)) =
      [none] ++ some exampleSeriesData :: [none] ∧
    (∀ s ∈ ([none] : List (Option SeriesData)), s = none) ∧
    scrape_player_market_value_history [none, some exampleSeriesData, none] =
      some (sortRows (exampleSeriesData.data.map fun r => (r.y, r.datum_mw))) ∧
    sortRows (exampleSeriesData.data.map fun r => (r.y, r.datum_mw)) =
      [(5400000, ⟨2019, 12, 10, 0, 0⟩)] ∧
    scrape_player_market_value_history [none, none] = none :=
  ⟨rfl, by simp,
    (c7_script_scan _).2 [none] [none] exampleSeriesData rfl (by simp),
    by simp [sortRows, exampleSeriesData],
    (c7_script_scan [none, none]).1 (by simp)⟩

/-- Elements all satisfying a predicate that makes the relation hold
pairwise give a pairwise filtered list. -/
theorem pairwise_filter_of_rel {α : Type} {R : α → α → Prop} {P : α → Bool}
    (hrel : ∀ a b, P a = true → P b = true → R a b) :
    ∀ l : List α, (l.filter P).Pairwise R := by
  intro l
  induction l with
  | nil => exact List.Pairwise.nil
  | cons x rest ih =>
    by_cases hx : P x
    · rw [List.filter_cons_of_pos hx]
      exact List.Pairwise.cons
        (fun b hb => hrel x b hx (List.of_mem_filter hb)) ih
    · rw [List.filter_cons_of_neg (by simpa using hx)]
      exact ih

/-- Claim C4: the history sort produces a sequence ascending
(non-decreasing) by timestamp for every input; it is stable — elements
sharing any given timestamp keep their relative order, stated as filter
invariance; and it is idempotent on already-ascending input. -/
theorem c4_sort_properties (xs : ValHist) :
    (sortRows xs).Pairwise (fun a b => dtLe a.2 b.2 = true) ∧
    (∀ t : PyDateTime,
      (sortRows xs).filter (fun p => p.2 == t) =
        xs.filter (fun p => p.2 == t)) ∧
    (xs.Pairwise (fun a b => dtLe a.2 b.2 = true) → sortRows xs = xs) := by
  have htrans : ∀ a b c : Nat × PyDateTime,
      dtLe a.2 b.2 → dtLe b.2 c.2 → dtLe a.2 c.2 :=
    fun _ _ _ h1 h2 => dtLe_trans h1 h2
  have htotal : ∀ a b : Nat × PyDateTime, dtLe a.2 b.2 || dtLe b.2 a.2 :=
    fun a b => dtLe_total a.2 b.2
  refine ⟨List.sorted_mergeSort htrans htotal xs, ?_, ?_⟩
  · intro t
    have hpw : (xs.filter fun p : Nat × PyDateTime => p.2 == t).Pairwise
        (fun a b => dtLe a.2 b.2 = true) := by
      refine pairwise_filter_of_rel ?_ xs
      intro a b ha hb
      have ha' : a.2 = t := by simpa using ha
      have hb' : b.2 = t := by simpa using hb
      rw [ha', hb']
      exact dtLe_refl t
    have hsub : List.Sublist (xs.filter fun p : Nat × PyDateTime => p.2 == t)
        (sortRows xs) :=
      List.sublist_mergeSort htrans htotal hpw (List.filter_sublist xs)
    have hself : ((xs.filter fun p : Nat × PyDateTime => p.2 == t).filter
        fun p : Nat × PyDateTime => p.2 == t) =
        xs.filter fun p : Nat × PyDateTime => p.2 == t := by
      rw [List.filter_eq_self]
      intro a ha
      have h2 := List.of_mem_filter ha
      exact h2
    have hsub2 : List.Sublist (xs.filter fun p : Nat × PyDateTime => p.2 == t)
        ((sortRows xs).filter fun p : Nat × PyDateTime => p.2 == t) := by
      have h3 := hsub.filter (fun p : Nat × PyDateTime => p.2 == t)
      rwa [hself] at h3
    have hperm : List.Perm
        ((sortRows xs).filter fun p : Nat × PyDateTime => p.2 == t)
        (xs.filter fun p : Nat × PyDateTime => p.2 == t) :=
      (List.mergeSort_perm xs _).filter _
    exact (hsub2.eq_of_length hperm.length_eq.symm).symm
  · intro hsorted
    exact List.mergeSort_of_sorted hsorted

/-- Witness for C4 at a concrete list with a duplicate timestamp: the
idempotence hypothesis is discharged on an already-ascending input. -/
theorem c4_sort_properties_witness :
    ([(100, (⟨2019, 1, 1, 0, 0⟩ : PyDateTime)), (200, ⟨2019, 6, 1, 0, 0⟩),
        (150, ⟨2019, 6, 1, 0, 0⟩)] : ValHist).Pairwise
      (fun a b => dtLe a.2 b.2 = true) ∧
    sortRows [(100, ⟨2019, 1, 1, 0, 0⟩), (200, ⟨2019, 6, 1, 0, 0⟩),
        (150, ⟨2019, 6, 1, 0, 0⟩)] =
      [(100, ⟨2019, 1, 1, 0, 0⟩), (200, ⟨2019, 6, 1, 0, 0⟩),
        (150, ⟨2019, 6, 1, 0, 0⟩)] :=
  ⟨by decide,
    (c4_sort_properties [(100, ⟨2019, 1, 1, 0, 0⟩), (200, ⟨2019, 6, 1, 0, 0⟩),
      (150, ⟨2019, 6, 1, 0, 0⟩)]).2.2 (by decide)⟩

/-- Claim C9 (code bug): the claim says a record whose date-of-birth key is
present but holds no value yields an absent age, but the guard
testing key membership of `dob` in `player_data` is true for such a record, so the code calls
`strptime(None, ...)`, which raises `TypeError`; only a record with the
key entirely absent yields an absent age. -/
theorem c9_none_dob_crash :
    calculate_player_age 2020 (some none) = .error "TypeError" ∧
    calculate_player_age 2020 none = .ok none :=
  ⟨rfl, rfl⟩

end Scraper
